import Mathlib

/-!
Verification development for the lumos satellite-brightness library.

The definitions below are a shallow embedding, over the real numbers, of the
core modules of the library: `lumos/constants.py`, `lumos/functions.py`,
`lumos/conversions.py`, the panel-mesh generator and brightness-frame
intensity calculator (`lumos/calculator.py` and
`lumos/calculators/brightness_frame.py`, which exist in two variants in the
source), and the ground/observer-frame batch calculator
(`lumos/calculators/ground_frame.py`).  NumPy's elementwise array operations
become maps over lists; `np.clip (x, 0, None)` becomes `max x 0`;
`np.arctan2 y x` becomes the argument of the complex number `x + y*I`;
raising `ValueError` becomes returning `Except.error`.  Machine floats are
modelled by real numbers, so float-specific artefacts (NaN, infinities,
rounding) are out of scope; `Real.arccos` clamps out-of-range arguments
where NumPy would produce NaN.
-/

namespace Lumos

noncomputable section

/-! ### Constants, from `lumos/constants.py` -/

/-- `SPEED_OF_LIGHT = 3.0 * 1e8` (m/s). -/
def SPEED_OF_LIGHT : ℝ := 3.0 * 1e8

/-- `WAVELENGTH = 532 * 1e-9` (m). -/
def WAVELENGTH : ℝ := 532 * 1e-9

/-- `EARTH_RADIUS = 6378 * 1000` (m). -/
def EARTH_RADIUS : ℝ := 6378 * 1000

/-- `SUN_INTENSITY = 1360` (W/m^2). -/
def SUN_INTENSITY : ℝ := 1360

/-! ### Linear-algebra helpers, from `lumos/functions.py` -/

/-- `det_2` from `lumos/functions.py`: determinant of a 2x2 matrix. -/
def det_2 (a11 a12 a21 a22 : ℝ) : ℝ := a11 * a22 - a21 * a12

/-- `det_3` from `lumos/functions.py`: determinant of a 3x3 matrix by cofactor
expansion along the first row. -/
def det_3 (a11 a12 a13 a21 a22 a23 a31 a32 a33 : ℝ) : ℝ :=
  a11 * det_2 a22 a23 a32 a33 - a12 * det_2 a21 a23 a31 a33 + a13 * det_2 a21 a22 a31 a32

/-- The nine components returned by `inv_3` (a 9-tuple in the Python source),
row-major. -/
structure Mat3 where
  m11 : ℝ
  m12 : ℝ
  m13 : ℝ
  m21 : ℝ
  m22 : ℝ
  m23 : ℝ
  m31 : ℝ
  m32 : ℝ
  m33 : ℝ

/-- `inv_3` from `lumos/functions.py`: the nine components of the inverse of a
3x3 matrix, computed from 2x2 cofactors scaled by the reciprocal of the
determinant. -/
def inv_3 (a11 a12 a13 a21 a22 a23 a31 a32 a33 : ℝ) : Mat3 :=
  let c := 1 / det_3 a11 a12 a13 a21 a22 a23 a31 a32 a33
  { m11 := c * det_2 a22 a23 a32 a33
    m12 := c * det_2 a13 a12 a33 a32
    m13 := c * det_2 a12 a13 a22 a23
    m21 := c * det_2 a23 a21 a33 a31
    m22 := c * det_2 a11 a13 a31 a33
    m23 := c * det_2 a13 a11 a23 a21
    m31 := c * det_2 a21 a22 a31 a32
    m32 := c * det_2 a12 a11 a32 a31
    m33 := c * det_2 a11 a12 a21 a22 }

/-! ### Conversions, from `lumos/conversions.py` -/

/-- `np.deg2rad`. -/
def deg2rad (x : ℝ) : ℝ := x * Real.pi / 180

/-- `np.rad2deg`. -/
def rad2deg (x : ℝ) : ℝ := x * 180 / Real.pi

/-- `np.arctan2 y x`, modelled as the argument of the complex number `x + y*I`
(both have range `(-pi, pi]` and send `(0, 0)` to `0`). -/
def atan2 (y x : ℝ) : ℝ := Complex.arg ⟨x, y⟩

/-- `intensity_to_ab_mag` from `lumos/conversions.py`.  Note that the clip
floor `10e-6 = 1e-5` is applied to `log_val`, the intensity already scaled by
`WAVELENGTH / (SPEED_OF_LIGHT * 3631e-26)`. -/
def intensity_to_ab_mag (intensity : ℝ) (clip : Bool) : ℝ :=
  let log_val := intensity * WAVELENGTH / (SPEED_OF_LIGHT * 3631e-26)
  let log_val := if clip then max log_val 10e-6 else log_val ;
  -2.5 * Real.logb 10 log_val

/-- `altaz_to_unit` from `lumos/conversions.py`: horizontal angles in degrees
to a Cartesian unit vector. -/
def altaz_to_unit (altitude azimuth : ℝ) : ℝ × ℝ × ℝ :=
  let phi := deg2rad (90 - altitude)
  let theta := deg2rad azimuth
  (Real.sin phi * Real.cos theta, Real.sin phi * Real.sin theta, Real.cos phi)

/-- `unit_to_spherical` from `lumos/conversions.py`.  Returns the pair
`(phi, theta)` converted to degrees by `np.rad2deg`. -/
def unit_to_spherical (x y z : ℝ) : ℝ × ℝ :=
  let phi := Real.arccos z
  let theta := atan2 y x
  (rad2deg phi, rad2deg theta)

/-- `spherical_to_unit` from `lumos/conversions.py`.  Applies `sin`/`cos`
directly to its arguments, hence consumes radians. -/
def spherical_to_unit (phi theta : ℝ) : ℝ × ℝ × ℝ :=
  (Real.sin phi * Real.cos theta, Real.sin phi * Real.sin theta, Real.cos phi)

/-! ### Earthshine panel mesh, from `get_earthshine_panels`
(identical copies in `lumos/calculator.py` and
`lumos/calculators/brightness_frame.py`) -/

/-- `np.linspace a b n` (with the default `endpoint=True`):
`a + i * (b - a) / (n - 1)` for `i = 0, ..., n-1`. -/
def linspace (a b : ℝ) (n : ℕ) : List ℝ :=
  (List.range n).map fun i : ℕ => a + (b - a) * (i : ℝ) / ((n : ℝ) - 1)

/-- Panel normal z-component `nz = 1 / sqrt(1 + tan(on)^2 + tan(off)^2)` as a
function of the on-plane angle `theta` and off-plane angle `phi`. -/
def panel_nz (theta phi : ℝ) : ℝ :=
  1 / Real.sqrt (1 + Real.tan theta ^ 2 + Real.tan phi ^ 2)

/-- Panel normal x-component `nx = tan(off) * nz`. -/
def panel_nx (theta phi : ℝ) : ℝ := Real.tan phi * panel_nz theta phi

/-- Panel normal y-component `ny = tan(on) * nz`. -/
def panel_ny (theta phi : ℝ) : ℝ := Real.tan theta * panel_nz theta phi

/-- The flattened meshgrid of candidate `(on-plane, off-plane)` angle pairs,
after the visibility filter `arccos nz < max_angle`.  `np.meshgrid` of the two
`linspace` grids followed by `flatten` enumerates, for each off-plane angle,
every on-plane angle. -/
def mesh_angles (sat_z angle_past_terminator : ℝ) (density : ℕ) : List (ℝ × ℝ) :=
  let max_angle := Real.arccos (EARTH_RADIUS / sat_z)
  let angles_off_plane := linspace (-max_angle) max_angle density
  let angles_on_plane := linspace angle_past_terminator max_angle density
  (angles_off_plane.flatMap fun phi => angles_on_plane.map fun theta => (theta, phi)).filter
    fun p => Real.arccos (panel_nz p.1 p.2) < max_angle

/-- `d_phi = abs(angles_off_plane[1] - angles_off_plane[0])`. -/
def mesh_d_phi (sat_z : ℝ) (density : ℕ) : ℝ :=
  let max_angle := Real.arccos (EARTH_RADIUS / sat_z)
  let angles_off_plane := linspace (-max_angle) max_angle density
  |angles_off_plane.getD 1 0 - angles_off_plane.getD 0 0|

/-- `d_theta = abs(angles_on_plane[1] - angles_on_plane[0])`. -/
def mesh_d_theta (sat_z angle_past_terminator : ℝ) (density : ℕ) : ℝ :=
  let max_angle := Real.arccos (EARTH_RADIUS / sat_z)
  let angles_on_plane := linspace angle_past_terminator max_angle density
  |angles_on_plane.getD 1 0 - angles_on_plane.getD 0 0|

/-- Panel position x-component `x = nx * R`. -/
def panel_x (theta phi : ℝ) : ℝ := panel_nx theta phi * EARTH_RADIUS

/-- Panel position y-component `y = ny * R`. -/
def panel_y (theta phi : ℝ) : ℝ := panel_ny theta phi * EARTH_RADIUS

/-- Panel position z-component `z = nz * R`. -/
def panel_z (theta phi : ℝ) : ℝ := panel_nz theta phi * EARTH_RADIUS

/-- `dx_dr = nx / nz * z / R`. -/
def dx_dr (theta phi : ℝ) : ℝ :=
  panel_nx theta phi / panel_nz theta phi * panel_z theta phi / EARTH_RADIUS

/-- `dx_dphi = z^3 / (R^2 * cos(phi)^2 * cos(theta)^2)`. -/
def dx_dphi (theta phi : ℝ) : ℝ :=
  panel_z theta phi ^ 3 / (EARTH_RADIUS ^ 2 * Real.cos phi ^ 2 * Real.cos theta ^ 2)

/-- `dx_dtheta = -(ny/nz * nx/nz * z^3) / (R^2 * cos(theta)^2)`. -/
def dx_dtheta (theta phi : ℝ) : ℝ :=
  -(panel_ny theta phi / panel_nz theta phi * (panel_nx theta phi / panel_nz theta phi) *
    panel_z theta phi ^ 3) / (EARTH_RADIUS ^ 2 * Real.cos theta ^ 2)

/-- `dy_dr = tan(theta) * z / R`. -/
def dy_dr (theta phi : ℝ) : ℝ := Real.tan theta * panel_z theta phi / EARTH_RADIUS

/-- `dy_dphi = -(ny/nz * nx/nz * z^3) / (R^2 * cos(phi)^2)`. -/
def dy_dphi (theta phi : ℝ) : ℝ :=
  -(panel_ny theta phi / panel_nz theta phi * (panel_nx theta phi / panel_nz theta phi) *
    panel_z theta phi ^ 3) / (EARTH_RADIUS ^ 2 * Real.cos phi ^ 2)

/-- `dy_dtheta = dx_dphi`. -/
def dy_dtheta (theta phi : ℝ) : ℝ := dx_dphi theta phi

/-- `dz_dr = z / R`. -/
def dz_dr (theta phi : ℝ) : ℝ := panel_z theta phi / EARTH_RADIUS

/-- `dz_dphi = -(nx/nz * z^3) / (R^2 * cos(phi)^2)`. -/
def dz_dphi (theta phi : ℝ) : ℝ :=
  -(panel_nx theta phi / panel_nz theta phi * panel_z theta phi ^ 3) /
    (EARTH_RADIUS ^ 2 * Real.cos phi ^ 2)

/-- `dz_dtheta = -(ny/nz * z^3) / (R^2 * cos(theta)^2)`. -/
def dz_dtheta (theta phi : ℝ) : ℝ :=
  -(panel_ny theta phi / panel_nz theta phi * panel_z theta phi ^ 3) /
    (EARTH_RADIUS ^ 2 * Real.cos theta ^ 2)

/-- The Jacobian determinant of one panel, exactly as computed in
`get_earthshine_panels`: the nine closed-form partial derivatives combined by
cofactor expansion. -/
def panel_determinant (theta phi : ℝ) : ℝ :=
  dx_dr theta phi * (dy_dphi theta phi * dz_dtheta theta phi -
      dy_dtheta theta phi * dz_dphi theta phi) -
    dy_dr theta phi * (dx_dphi theta phi * dz_dtheta theta phi -
      dx_dtheta theta phi * dz_dphi theta phi) +
    dz_dr theta phi * (dx_dphi theta phi * dy_dtheta theta phi -
      dx_dtheta theta phi * dy_dphi theta phi)

/-- Panel area as computed by `get_earthshine_panels` and used by the
calculators: `determinant * d_phi * d_theta`. -/
def panel_area (sat_z angle_past_terminator : ℝ) (density : ℕ) (theta phi : ℝ) : ℝ :=
  panel_determinant theta phi * mesh_d_phi sat_z density *
    mesh_d_theta sat_z angle_past_terminator density

/-- The seven parallel arrays returned by `get_earthshine_panels`. -/
structure EarthshinePanels where
  x : List ℝ
  y : List ℝ
  z : List ℝ
  nx : List ℝ
  ny : List ℝ
  nz : List ℝ
  areas : List ℝ

/-- `get_earthshine_panels` from `lumos/calculator.py` (an identical copy
lives in `lumos/calculators/brightness_frame.py`): positions are the normals
scaled by `EARTH_RADIUS`, areas are `determinant * d_phi * d_theta`. -/
def get_earthshine_panels (sat_z angle_past_terminator : ℝ) (density : ℕ) :
    EarthshinePanels :=
  let angles := mesh_angles sat_z angle_past_terminator density
  { x := angles.map fun p => panel_x p.1 p.2
    y := angles.map fun p => panel_y p.1 p.2
    z := angles.map fun p => panel_z p.1 p.2
    nx := angles.map fun p => panel_nx p.1 p.2
    ny := angles.map fun p => panel_ny p.1 p.2
    nz := angles.map fun p => panel_nz p.1 p.2
    areas := angles.map fun p => panel_area sat_z angle_past_terminator density p.1 p.2 }

/-! ### Satellite surfaces, from `lumos/geometry.py` -/

/-- A 3-vector. -/
abbrev Vec3 := ℝ × ℝ × ℝ

/-- The `normal` attribute of a `Surface`: either a fixed vector or a callable
of the angle past the terminator (the Python code tests `callable(normal)`). -/
inductive SurfaceNormal where
  | fixed (v : Vec3)
  | dynamic (f : ℝ → Vec3)

/-- Resolution of a surface normal at a given angle past the terminator,
mirroring `surface.normal(angle) if callable(surface.normal) else
surface.normal`. -/
def SurfaceNormal.resolve : SurfaceNormal → ℝ → Vec3
  | .fixed v, _ => v
  | .dynamic f, alpha => f alpha

/-- `lumos.geometry.Surface`: area, normal, and BRDF. -/
structure Surface where
  area : ℝ
  normal : SurfaceNormal
  brdf : Vec3 → Vec3 → Vec3 → ℝ

/-! ### Brightness-frame intensity calculators

Two variants exist in the source: `calculate_intensity` in
`lumos/calculators/brightness_frame.py` and `get_intensity_satellite_frame`
in `lumos/calculator.py`.  They differ only in the cosine weighting of the
earthshine term.  NumPy's per-panel arrays (`dist_panels_2_sat`,
`panel_sat_*`, `panel_normalizations`, `panel_brdfs`, ...) become functions
of the mesh angle pair, applied inside the sum over panels. -/

/-- Distance from a panel to the satellite,
`sqrt(panel_x^2 + panel_y^2 + (sat_z - panel_z)^2)`. -/
def dist_panels_2_sat (sat_z theta phi : ℝ) : ℝ :=
  Real.sqrt (panel_x theta phi ^ 2 + panel_y theta phi ^ 2 +
    (sat_z - panel_z theta phi) ^ 2)

/-- Unit vector from a panel toward the satellite,
`(-panel_x, -panel_y, sat_z - panel_z) / dist_panels_2_sat`. -/
def panel_sat (sat_z theta phi : ℝ) : Vec3 :=
  (-panel_x theta phi / dist_panels_2_sat sat_z theta phi,
   -panel_y theta phi / dist_panels_2_sat sat_z theta phi,
   (sat_z - panel_z theta phi) / dist_panels_2_sat sat_z theta phi)

/-- Illumination cosine of a panel,
`panel_ny * vector_2_sun[1] + panel_nz * vector_2_sun[2]` (not clipped in the
source). -/
def panel_normalization (angle_past_terminator theta phi : ℝ) : ℝ :=
  panel_ny theta phi * Real.cos angle_past_terminator +
    panel_nz theta phi * (-Real.sin angle_past_terminator)

namespace BrightnessFrame

/-- `calculate_intensity` from `lumos/calculators/brightness_frame.py`: the
brightness-frame radiometric integrator.  Earthshine weighting in this
variant squares the single clipped surface-to-panel cosine. -/
def calculate_intensity (sat_surfaces : List Surface) (sat_height angle_past_terminator : ℝ)
    (observer_position : Vec3) (include_sun include_earthshine : Bool)
    (earth_panel_density : ℕ) (earth_brdf : Vec3 → Vec3 → Vec3 → ℝ) : ℝ :=
  let horizon_angle := Real.arccos (EARTH_RADIUS / (EARTH_RADIUS + sat_height))
  if angle_past_terminator > horizon_angle then 0
  else if Real.arccos (observer_position.2.2 / EARTH_RADIUS) > horizon_angle + deg2rad 1 then 0
  else
    let observer_x := observer_position.1
    let observer_y := observer_position.2.1
    let observer_z := observer_position.2.2
    let vector_2_sun : Vec3 :=
      (0, Real.cos angle_past_terminator, -Real.sin angle_past_terminator)
    let sat_z := sat_height + EARTH_RADIUS
    let dist_sat_2_obs :=
      Real.sqrt (observer_x ^ 2 + observer_y ^ 2 + (observer_z - sat_z) ^ 2)
    let sat_obs_x := observer_x / dist_sat_2_obs
    let sat_obs_y := observer_y / dist_sat_2_obs
    let sat_obs_z := (observer_z - sat_z) / dist_sat_2_obs
    let panels := mesh_angles sat_z angle_past_terminator earth_panel_density
    let panel_brdf := fun (p : ℝ × ℝ) =>
      earth_brdf vector_2_sun (panel_nx p.1 p.2, panel_ny p.1 p.2, panel_nz p.1 p.2)
        (panel_sat sat_z p.1 p.2)
    (sat_surfaces.map fun surface =>
      let surface_normal := surface.normal.resolve angle_past_terminator
      let surface_normalization :=
        max (surface_normal.2.1 * vector_2_sun.2.1 + surface_normal.2.2 * vector_2_sun.2.2) 0
      let observer_normalization :=
        max (surface_normal.1 * sat_obs_x + surface_normal.2.1 * sat_obs_y +
          surface_normal.2.2 * sat_obs_z) 0
      let sun_contribution :=
        if include_sun then
          surface.brdf vector_2_sun surface_normal (sat_obs_x, sat_obs_y, sat_obs_z) *
            surface_normalization * observer_normalization
        else 0
      let earth_contribution :=
        if include_earthshine then
          (panels.map fun p =>
            let surface_normalizations :=
              max (surface_normal.1 * (panel_sat sat_z p.1 p.2).1 +
                surface_normal.2.1 * (panel_sat sat_z p.1 p.2).2.1 +
                surface_normal.2.2 * (panel_sat sat_z p.1 p.2).2.2) 0 ^ 2
            let surface_brdf :=
              surface.brdf (-(panel_sat sat_z p.1 p.2).1, -(panel_sat sat_z p.1 p.2).2.1,
                  -(panel_sat sat_z p.1 p.2).2.2)
                surface_normal (sat_obs_x, sat_obs_y, sat_obs_z)
            panel_brdf p * surface_brdf * panel_normalization angle_past_terminator p.1 p.2 *
              surface_normalizations *
              panel_area sat_z angle_past_terminator earth_panel_density p.1 p.2 /
              dist_panels_2_sat sat_z p.1 p.2 ^ 2).sum
        else 0
      SUN_INTENSITY * surface.area * (sun_contribution + earth_contribution) /
        dist_sat_2_obs ^ 2).sum

end BrightnessFrame

/-- `get_intensity_satellite_frame` from `lumos/calculator.py`: the second
variant of the brightness-frame integrator.  Its earthshine weighting
multiplies the clipped panel-to-surface cosine (with the opposite sign
convention), the clipped panel self-viewing cosine, and the clipped
surface-to-observer cosine. -/
def get_intensity_satellite_frame (sat_surfaces : List Surface)
    (sat_height angle_past_terminator : ℝ)
    (observer_position : Vec3) (include_sun include_earthshine : Bool)
    (earth_panel_density : ℕ) (earth_brdf : Vec3 → Vec3 → Vec3 → ℝ) : ℝ :=
  let horizon_angle := Real.arccos (EARTH_RADIUS / (EARTH_RADIUS + sat_height))
  if angle_past_terminator > horizon_angle then 0
  else if Real.arccos (observer_position.2.2 / EARTH_RADIUS) > horizon_angle + deg2rad 1 then 0
  else
    let observer_x := observer_position.1
    let observer_y := observer_position.2.1
    let observer_z := observer_position.2.2
    let vector_2_sun : Vec3 :=
      (0, Real.cos angle_past_terminator, -Real.sin angle_past_terminator)
    let sat_z := sat_height + EARTH_RADIUS
    let dist_sat_2_obs :=
      Real.sqrt (observer_x ^ 2 + observer_y ^ 2 + (observer_z - sat_z) ^ 2)
    let sat_obs_x := observer_x / dist_sat_2_obs
    let sat_obs_y := observer_y / dist_sat_2_obs
    let sat_obs_z := (observer_z - sat_z) / dist_sat_2_obs
    let panels := mesh_angles sat_z angle_past_terminator earth_panel_density
    let panel_brdf := fun (p : ℝ × ℝ) =>
      earth_brdf vector_2_sun (panel_nx p.1 p.2, panel_ny p.1 p.2, panel_nz p.1 p.2)
        (panel_sat sat_z p.1 p.2)
    (sat_surfaces.map fun surface =>
      let surface_normal := surface.normal.resolve angle_past_terminator
      let surface_normalization :=
        max (surface_normal.2.1 * vector_2_sun.2.1 + surface_normal.2.2 * vector_2_sun.2.2) 0
      let observer_normalization :=
        max (surface_normal.1 * sat_obs_x + surface_normal.2.1 * sat_obs_y +
          surface_normal.2.2 * sat_obs_z) 0
      let sun_contribution :=
        if include_sun then
          surface.brdf vector_2_sun surface_normal (sat_obs_x, sat_obs_y, sat_obs_z) *
            surface_normalization * observer_normalization
        else 0
      let earth_contribution :=
        if include_earthshine then
          (panels.map fun p =>
            let surface_normalizations :=
              max (-(surface_normal.1 * (panel_sat sat_z p.1 p.2).1) -
                surface_normal.2.1 * (panel_sat sat_z p.1 p.2).2.1 -
                surface_normal.2.2 * (panel_sat sat_z p.1 p.2).2.2) 0
            let panel_observing_normalization :=
              max (panel_nx p.1 p.2 * (panel_sat sat_z p.1 p.2).1 +
                panel_ny p.1 p.2 * (panel_sat sat_z p.1 p.2).2.1 +
                panel_nz p.1 p.2 * (panel_sat sat_z p.1 p.2).2.2) 0
            let surface_brdf :=
              surface.brdf (-(panel_sat sat_z p.1 p.2).1, -(panel_sat sat_z p.1 p.2).2.1,
                  -(panel_sat sat_z p.1 p.2).2.2)
                surface_normal (sat_obs_x, sat_obs_y, sat_obs_z)
            panel_brdf p * surface_brdf * panel_normalization angle_past_terminator p.1 p.2 *
              observer_normalization * surface_normalizations * panel_observing_normalization *
              panel_area sat_z angle_past_terminator earth_panel_density p.1 p.2 /
              dist_panels_2_sat sat_z p.1 p.2 ^ 2).sum
        else 0
      SUN_INTENSITY * surface.area * (sun_contribution + earth_contribution) /
        dist_sat_2_obs ^ 2).sum

/-! ### Ground/observer-frame batch calculator, from
`lumos/calculators/ground_frame.py` -/

/-- `get_brightness_coords` from `lumos/calculators/ground_frame.py` (an
identical copy lives in `lumos/calculator.py`), scalar form: all NumPy
operations in the source are pointwise in the satellite coordinates, with the
sun coordinates broadcast. -/
def get_brightness_coords (sat_alt sat_az sat_height sun_alt sun_az : ℝ) : ℝ × ℝ × ℝ × ℝ :=
  let satu := altaz_to_unit sat_alt sat_az
  let sunu := altaz_to_unit sun_alt sun_az
  let sat_x := satu.1
  let sat_y := satu.2.1
  let sat_z := satu.2.2
  let sun_x := sunu.1
  let sun_y := sunu.2.1
  let sun_z := sunu.2.2
  let phi := Real.arccos sat_z -
    Real.arcsin (EARTH_RADIUS / (EARTH_RADIUS + sat_height) * Real.sqrt (sat_x ^ 2 + sat_y ^ 2))
  let theta := atan2 sat_y sat_x
  let Zx := Real.sin phi * Real.cos theta
  let Zy := Real.sin phi * Real.sin theta
  let Zz := Real.cos phi
  let dot := Zx * sun_x + Zy * sun_y + Zz * sun_z
  let beta := 1 / Real.sqrt (1 - dot ^ 2)
  let alpha := -beta * dot
  let Yx0 := alpha * Zx + beta * sun_x
  let Yy0 := alpha * Zy + beta * sun_y
  let Yz0 := alpha * Zz + beta * sun_z
  let flip := Real.sign (Yx0 * sun_x + Yy0 * sun_y + Yz0 * sun_z)
  let Yx := flip * Yx0
  let Yy := flip * Yy0
  let Yz := flip * Yz0
  let Xx := Yy * Zz - Zy * Yz
  let Xy := Zx * Yz - Yx * Zz
  let Xz := Yx * Zy - Zx * Yy
  let T := inv_3 Xx Yx Zx Xy Yy Zy Xz Yz Zz
  let dist_to_sat := Real.sqrt (EARTH_RADIUS ^ 2 + (EARTH_RADIUS + sat_height) ^ 2 -
    2 * EARTH_RADIUS * (EARTH_RADIUS + sat_height) * Real.cos phi)
  let obs_x := -dist_to_sat * (T.m11 * sat_x + T.m12 * sat_y + T.m13 * sat_z)
  let obs_y := -dist_to_sat * (T.m21 * sat_x + T.m22 * sat_y + T.m23 * sat_z)
  let obs_z := (EARTH_RADIUS + sat_height) - dist_to_sat * (T.m31 * sat_x + T.m32 * sat_y + T.m33 * sat_z)
  let angle_past_terminator := -Real.arcsin (T.m31 * sun_x + T.m32 * sun_y + T.m33 * sun_z)
  (obs_x, obs_y, obs_z, angle_past_terminator)

/-- The `sat_heights` argument of the batch calculator: a scalar (broadcast
over the input shape by `sat_heights * np.ones(output_shape)`) or a
per-element array. -/
inductive Heights where
  | scalar (h : ℝ)
  | array (hs : List ℝ)

namespace GroundFrame

/-- `calculate_intensity` from `lumos/calculators/ground_frame.py`: validates
the sun altitude, broadcasts scalar heights, converts all elements to
brightness coordinates, and loops the scalar brightness-frame calculator over
the elements.  Arrays are modelled flattened (1-D); `raise ValueError` is
modelled as `Except.error`. -/
def calculate_intensity (sat_surfaces : List Surface) (sat_heights : Heights)
    (sat_altitudes sat_azimuths : List ℝ) (sun_altitude sun_azimuth : ℝ)
    (include_sun include_earthshine : Bool) (earth_panel_density : ℕ)
    (earth_brdf : Vec3 → Vec3 → Vec3 → ℝ) : Except String (List ℝ) :=
  if sun_altitude > 0 then .error "Observatory is in daylight!"
  else
    let hs := match sat_heights with
      | .scalar h => sat_altitudes.map fun _ => h
      | .array l => l
    let coords := (hs.zip (sat_altitudes.zip sat_azimuths)).map fun q =>
      get_brightness_coords q.2.1 q.2.2 q.1 sun_altitude sun_azimuth
    .ok ((coords.zip hs).map fun q =>
      BrightnessFrame.calculate_intensity sat_surfaces q.2 q.1.2.2.2 (q.1.1, q.1.2.1, q.1.2.2.1)
        include_sun include_earthshine earth_panel_density earth_brdf)

end GroundFrame

/-- Specification-side reference for the batch calculator (refinement claim):
for each element independently, transform that element's horizontal
coordinates to brightness-frame coordinates and phase angle, then apply the
scalar brightness-frame calculator to them. -/
def observer_frame_elementwise (sat_surfaces : List Surface) (sat_heights : Heights)
    (sat_altitudes sat_azimuths : List ℝ) (sun_altitude sun_azimuth : ℝ)
    (include_sun include_earthshine : Bool) (earth_panel_density : ℕ)
    (earth_brdf : Vec3 → Vec3 → Vec3 → ℝ) : List ℝ :=
  let hs := match sat_heights with
    | .scalar h => sat_altitudes.map fun _ => h
    | .array l => l
  (hs.zip (sat_altitudes.zip sat_azimuths)).map fun q =>
    let c := get_brightness_coords q.2.1 q.2.2 q.1 sun_altitude sun_azimuth
    BrightnessFrame.calculate_intensity sat_surfaces q.1 c.2.2.2 (c.1, c.2.1, c.2.2.1)
      include_sun include_earthshine earth_panel_density earth_brdf

end

/-! ## Helper lemmas -/

/-- The brightness-frame calculator (package variant) returns 0 as soon as the
angle past the terminator exceeds the horizon angle. -/
theorem brightness_frame_shadow_zero (sat_surfaces : List Surface)
    (sat_height angle_past_terminator : ℝ) (observer_position : Vec3)
    (include_sun include_earthshine : Bool) (earth_panel_density : ℕ)
    (earth_brdf : Vec3 → Vec3 → Vec3 → ℝ)
    (h : angle_past_terminator > Real.arccos (EARTH_RADIUS / (EARTH_RADIUS + sat_height))) :
    BrightnessFrame.calculate_intensity sat_surfaces sat_height angle_past_terminator
      observer_position include_sun include_earthshine earth_panel_density earth_brdf = 0 := by
  simp only [BrightnessFrame.calculate_intensity]
  rw [if_pos h]

/-- The brightness-frame calculator (`lumos/calculator.py` variant) returns 0
as soon as the angle past the terminator exceeds the horizon angle. -/
theorem satellite_frame_shadow_zero (sat_surfaces : List Surface)
    (sat_height angle_past_terminator : ℝ) (observer_position : Vec3)
    (include_sun include_earthshine : Bool) (earth_panel_density : ℕ)
    (earth_brdf : Vec3 → Vec3 → Vec3 → ℝ)
    (h : angle_past_terminator > Real.arccos (EARTH_RADIUS / (EARTH_RADIUS + sat_height))) :
    get_intensity_satellite_frame sat_surfaces sat_height angle_past_terminator
      observer_position include_sun include_earthshine earth_panel_density earth_brdf = 0 := by
  simp only [get_intensity_satellite_frame]
  rw [if_pos h]

/-- Zipping a zip-derived map back with its first source and mapping collapses
to a single map over the original zip. -/
theorem zip_map_zip_fst {α β γ δ : Type} (l₁ : List α) (l₂ : List β) (f : α × β → γ)
    (g : γ × α → δ) :
    (((l₁.zip l₂).map f).zip l₁).map g = (l₁.zip l₂).map fun q => g (f q, q.1) := by
  induction l₁ generalizing l₂ with
  | nil => simp
  | cons a l ih =>
    cases l₂ with
    | nil => simp
    | cons b m => simp [ih]

/-! ## C1 -/

/-- C1: for any surface list, positive satellite height, observer position,
flags, panel density and reflectance functions, if the angle past the
terminator exceeds `horizon = arccos(R/(R+h))` then both brightness-frame
intensity calculators return exactly 0 (a normal result); since the result is
0 for every density and every reflectance function, no panel mesh and no
reflectance evaluation can influence it. -/
theorem intensity_zero_past_horizon (sat_surfaces : List Surface)
    (sat_height angle_past_terminator : ℝ) (observer_position : Vec3)
    (include_sun include_earthshine : Bool) (earth_panel_density : ℕ)
    (earth_brdf : Vec3 → Vec3 → Vec3 → ℝ)
    (_hheight : 0 < sat_height)
    (h : angle_past_terminator > Real.arccos (EARTH_RADIUS / (EARTH_RADIUS + sat_height))) :
    BrightnessFrame.calculate_intensity sat_surfaces sat_height angle_past_terminator
      observer_position include_sun include_earthshine earth_panel_density earth_brdf = 0 ∧
    get_intensity_satellite_frame sat_surfaces sat_height angle_past_terminator
      observer_position include_sun include_earthshine earth_panel_density earth_brdf = 0 :=
  ⟨brightness_frame_shadow_zero _ _ _ _ _ _ _ _ h,
   satellite_frame_shadow_zero _ _ _ _ _ _ _ _ h⟩

/-- Witness for C1 at height 550000 m and angle 4 rad (which exceeds the
horizon angle because `arccos ≤ pi < 4`). -/
theorem intensity_zero_past_horizon_witness :
    (0 : ℝ) < 550000 ∧
    (4 : ℝ) > Real.arccos (EARTH_RADIUS / (EARTH_RADIUS + 550000)) ∧
    BrightnessFrame.calculate_intensity [] 550000 4 (0, 0, 0) true true 150
      (fun _ _ _ => 0) = 0 := by
  have hgt : (4 : ℝ) > Real.arccos (EARTH_RADIUS / (EARTH_RADIUS + 550000)) :=
    lt_of_le_of_lt (Real.arccos_le_pi _) (by nlinarith [Real.pi_lt_d2])
  exact ⟨by norm_num, hgt,
    (intensity_zero_past_horizon [] 550000 4 (0, 0, 0) true true 150 (fun _ _ _ => 0)
      (by norm_num) hgt).1⟩

/-! ## C5 -/

/-- C5: the ground/observer-frame batch calculator fails with the
`InvalidObservationState` condition (`ValueError("Observatory is in
daylight!")`) exactly when the sun's altitude is strictly positive, for every
other argument (so nothing is computed when it fails), and for sun altitude
at most 0 it returns a normal `ok` result. -/
theorem observer_frame_daylight_iff (sat_surfaces : List Surface) (sat_heights : Heights)
    (sat_altitudes sat_azimuths : List ℝ) (sun_altitude sun_azimuth : ℝ)
    (include_sun include_earthshine : Bool) (earth_panel_density : ℕ)
    (earth_brdf : Vec3 → Vec3 → Vec3 → ℝ) :
    (GroundFrame.calculate_intensity sat_surfaces sat_heights sat_altitudes sat_azimuths
        sun_altitude sun_azimuth include_sun include_earthshine earth_panel_density
        earth_brdf = .error "Observatory is in daylight!" ↔ 0 < sun_altitude) ∧
    ((∃ out, GroundFrame.calculate_intensity sat_surfaces sat_heights sat_altitudes
        sat_azimuths sun_altitude sun_azimuth include_sun include_earthshine
        earth_panel_density earth_brdf = .ok out) ↔ sun_altitude ≤ 0) := by
  by_cases h : 0 < sun_altitude
  · refine ⟨by simp [GroundFrame.calculate_intensity, h], ?_⟩
    simp only [GroundFrame.calculate_intensity, if_pos h]
    constructor
    · rintro ⟨out, hout⟩
      simp at hout
    · intro hle
      linarith
  · refine ⟨by simp [GroundFrame.calculate_intensity, h], ?_⟩
    simp only [GroundFrame.calculate_intensity, if_neg h]
    exact ⟨fun _ => not_lt.mp h, fun _ => ⟨_, rfl⟩⟩

/-! ## C3 -/

/-- C3: for same-shape altitude/azimuth inputs (and a scalar height or a
per-element height array) and sun altitude at most 0, the batch calculator
returns `ok` of exactly the element-wise list—each element is the scalar
brightness-frame calculator applied to that element's transformed
brightness-frame coordinates, height, and phase angle—and the output has the
same length (shape) as the input. -/
theorem observer_frame_matches_elementwise (sat_surfaces : List Surface)
    (sat_heights : Heights) (sat_altitudes sat_azimuths : List ℝ)
    (sun_altitude sun_azimuth : ℝ) (include_sun include_earthshine : Bool)
    (earth_panel_density : ℕ) (earth_brdf : Vec3 → Vec3 → Vec3 → ℝ)
    (hlen : sat_azimuths.length = sat_altitudes.length)
    (hh : ∀ l, sat_heights = .array l → l.length = sat_altitudes.length)
    (hsun : sun_altitude ≤ 0) :
    GroundFrame.calculate_intensity sat_surfaces sat_heights sat_altitudes sat_azimuths
        sun_altitude sun_azimuth include_sun include_earthshine earth_panel_density
        earth_brdf =
      .ok (observer_frame_elementwise sat_surfaces sat_heights sat_altitudes sat_azimuths
        sun_altitude sun_azimuth include_sun include_earthshine earth_panel_density
        earth_brdf) ∧
    (observer_frame_elementwise sat_surfaces sat_heights sat_altitudes sat_azimuths
        sun_altitude sun_azimuth include_sun include_earthshine earth_panel_density
        earth_brdf).length = sat_altitudes.length := by
  constructor
  · simp only [GroundFrame.calculate_intensity, observer_frame_elementwise,
      if_neg (not_lt.mpr hsun)]
    cases sat_heights with
    | scalar h => exact congrArg Except.ok (zip_map_zip_fst _ _ _ _)
    | array l => exact congrArg Except.ok (zip_map_zip_fst _ _ _ _)
  · cases sat_heights with
    | scalar h =>
      simp [observer_frame_elementwise, hlen]
    | array l =>
      simp [observer_frame_elementwise, hlen, hh l rfl]

/-- Witness for C3: one-element input with scalar height and the sun below
the horizontal plane. -/
theorem observer_frame_matches_elementwise_witness :
    ([(180 : ℝ)]).length = ([(45 : ℝ)]).length ∧ (-10 : ℝ) ≤ 0 ∧
    GroundFrame.calculate_intensity [] (.scalar 550000) [45] [180] (-10) 20 true true 2
        (fun _ _ _ => 0) =
      .ok (observer_frame_elementwise [] (.scalar 550000) [45] [180] (-10) 20 true true 2
        (fun _ _ _ => 0)) :=
  ⟨rfl, by norm_num,
    (observer_frame_matches_elementwise [] (.scalar 550000) [45] [180] (-10) 20 true true 2
      (fun _ _ _ => 0) rfl (fun l hl => by cases hl) (by norm_num)).1⟩

/-! ## C9 -/

/-- C9: whenever `det_3` of a 3x3 matrix is nonzero, the nine values returned
by `inv_3` are the components of the inverse matrix: multiplying the original
matrix by the returned one, in either order, yields the identity matrix. -/
theorem inv_3_left_right_inverse
    (a11 a12 a13 a21 a22 a23 a31 a32 a33 b11 b12 b13 b21 b22 b23 b31 b32 b33 : ℝ)
    (hdet : det_3 a11 a12 a13 a21 a22 a23 a31 a32 a33 ≠ 0)
    (hinv : inv_3 a11 a12 a13 a21 a22 a23 a31 a32 a33 =
      ⟨b11, b12, b13, b21, b22, b23, b31, b32, b33⟩) :
    (a11 * b11 + a12 * b21 + a13 * b31 = 1 ∧
     a11 * b12 + a12 * b22 + a13 * b32 = 0 ∧
     a11 * b13 + a12 * b23 + a13 * b33 = 0 ∧
     a21 * b11 + a22 * b21 + a23 * b31 = 0 ∧
     a21 * b12 + a22 * b22 + a23 * b32 = 1 ∧
     a21 * b13 + a22 * b23 + a23 * b33 = 0 ∧
     a31 * b11 + a32 * b21 + a33 * b31 = 0 ∧
     a31 * b12 + a32 * b22 + a33 * b32 = 0 ∧
     a31 * b13 + a32 * b23 + a33 * b33 = 1) ∧
    (b11 * a11 + b12 * a21 + b13 * a31 = 1 ∧
     b11 * a12 + b12 * a22 + b13 * a32 = 0 ∧
     b11 * a13 + b12 * a23 + b13 * a33 = 0 ∧
     b21 * a11 + b22 * a21 + b23 * a31 = 0 ∧
     b21 * a12 + b22 * a22 + b23 * a32 = 1 ∧
     b21 * a13 + b22 * a23 + b23 * a33 = 0 ∧
     b31 * a11 + b32 * a21 + b33 * a31 = 0 ∧
     b31 * a12 + b32 * a22 + b33 * a32 = 0 ∧
     b31 * a13 + b32 * a23 + b33 * a33 = 1) := by
  simp only [inv_3, Mat3.mk.injEq] at hinv
  obtain ⟨e11, e12, e13, e21, e22, e23, e31, e32, e33⟩ := hinv
  subst e11 e12 e13 e21 e22 e23 e31 e32 e33
  simp only [det_3, det_2] at hdet ⊢
  refine ⟨⟨?_, ?_, ?_, ?_, ?_, ?_, ?_, ?_, ?_⟩, ?_, ?_, ?_, ?_, ?_, ?_, ?_, ?_, ?_⟩ <;>
    · field_simp
      ring

/-- Witness for C9 at the matrix `[[1,2,0],[0,1,0],[0,0,3]]`, whose
determinant is 3 and whose inverse is `[[1,-2,0],[0,1,0],[0,0,1/3]]`. -/
theorem inv_3_left_right_inverse_witness :
    det_3 1 2 0 0 1 0 0 0 3 ≠ 0 ∧
    inv_3 1 2 0 0 1 0 0 0 3 = ⟨1, -2, 0, 0, 1, 0, 0, 0, (3 : ℝ)⁻¹⟩ ∧
    (1 * 1 + 2 * 0 + 0 * 0 = (1 : ℝ)) := by
  have hdet : det_3 (1:ℝ) 2 0 0 1 0 0 0 3 ≠ 0 := by norm_num [det_3, det_2]
  have hinv : inv_3 (1:ℝ) 2 0 0 1 0 0 0 3 = ⟨1, -2, 0, 0, 1, 0, 0, 0, (3 : ℝ)⁻¹⟩ := by
    simp only [inv_3, det_3, det_2, Mat3.mk.injEq]
    norm_num
  exact ⟨hdet, hinv,
    (inv_3_left_right_inverse 1 2 0 0 1 0 0 0 3 1 (-2) 0 0 1 0 0 0 (3:ℝ)⁻¹ hdet hinv).1.1⟩

/-! ## C6 -/

/-- C6 counterexample: at intensity 0 with clip enabled the code returns
`-2.5 * log10 (1e-5) = 12.5`, because the floor is applied to the scaled
value `intensity * WAVELENGTH / (SPEED_OF_LIGHT * 3631e-26)`; the claim's
reading (floor the raw intensity at 1e-5, then scale, then take the log)
would give a different, negative value. -/
theorem ab_mag_floor_counterexample :
    intensity_to_ab_mag 0 true = 12.5 ∧
    -2.5 * Real.logb 10 (max (0 : ℝ) 10e-6 *
      (WAVELENGTH / (SPEED_OF_LIGHT * 3631e-26))) ≠ 12.5 := by
  constructor
  · have h0 : (0 : ℝ) * WAVELENGTH / (SPEED_OF_LIGHT * 3631e-26) = 0 := by
      norm_num
    have hmax : max ((0 : ℝ) * WAVELENGTH / (SPEED_OF_LIGHT * 3631e-26)) 10e-6 = 10e-6 := by
      rw [h0]
      norm_num
    have hpow : (10e-6 : ℝ) = ((10 : ℝ) ^ (5 : ℕ))⁻¹ := by norm_num
    simp only [intensity_to_ab_mag, if_true, hmax]
    rw [hpow, Real.logb_inv, Real.logb_pow, Real.logb_self_eq_one (b := 10) (by norm_num)]
    norm_num
  · have hgt : (1 : ℝ) < max (0 : ℝ) 10e-6 * (WAVELENGTH / (SPEED_OF_LIGHT * 3631e-26)) := by
      rw [max_eq_right (by norm_num : (0:ℝ) ≤ 10e-6)]
      rw [WAVELENGTH, SPEED_OF_LIGHT]
      norm_num
    have hlog : 0 < Real.logb 10 (max (0 : ℝ) 10e-6 *
        (WAVELENGTH / (SPEED_OF_LIGHT * 3631e-26))) :=
      Real.logb_pos (by norm_num) hgt
    nlinarith

/-- C6 amended: with clip enabled the floor 1e-5 is applied to the scaled
intensity `intensity * WAVELENGTH / (SPEED_OF_LIGHT * 3631e-26)` (not to the
raw intensity) before the logarithm; consequently the output equals
`-2.5 * log10 (max scaled 1e-5)`, is bounded above by 12.5 (never infinite),
and is strictly decreasing in the intensity whenever the scaled intensity is
at or above the floor. -/
theorem ab_mag_floor_amended :
    (∀ I : ℝ, intensity_to_ab_mag I true =
      -2.5 * Real.logb 10 (max (I * WAVELENGTH / (SPEED_OF_LIGHT * 3631e-26)) 10e-6)) ∧
    (∀ I : ℝ, intensity_to_ab_mag I true ≤ 12.5) ∧
    (∀ I J : ℝ, 10e-6 ≤ I * WAVELENGTH / (SPEED_OF_LIGHT * 3631e-26) → I < J →
      intensity_to_ab_mag J true < intensity_to_ab_mag I true) := by
  have hscale : (0 : ℝ) < WAVELENGTH / (SPEED_OF_LIGHT * 3631e-26) := by
    rw [WAVELENGTH, SPEED_OF_LIGHT]
    norm_num
  have hform : ∀ I : ℝ, intensity_to_ab_mag I true =
      -2.5 * Real.logb 10 (max (I * WAVELENGTH / (SPEED_OF_LIGHT * 3631e-26)) 10e-6) := by
    intro I
    simp [intensity_to_ab_mag]
  have hfloor : ∀ I : ℝ, Real.logb 10 (10e-6 : ℝ) ≤
      Real.logb 10 (max (I * WAVELENGTH / (SPEED_OF_LIGHT * 3631e-26)) 10e-6) := by
    intro I
    exact Real.logb_le_logb_of_le (by norm_num : (1:ℝ) < 10) (by norm_num) (le_max_right _ _)
  have hlogfloor : Real.logb 10 (10e-6 : ℝ) = -5 := by
    have hpow : (10e-6 : ℝ) = ((10 : ℝ) ^ (5 : ℕ))⁻¹ := by norm_num
    rw [hpow, Real.logb_inv, Real.logb_pow, Real.logb_self_eq_one (b := 10) (by norm_num)]
    norm_num
  refine ⟨hform, ?_, ?_⟩
  · intro I
    rw [hform I]
    have := hfloor I
    rw [hlogfloor] at this
    nlinarith
  · intro I J hI hIJ
    rw [hform I, hform J]
    have hmono : I * WAVELENGTH / (SPEED_OF_LIGHT * 3631e-26) <
        J * WAVELENGTH / (SPEED_OF_LIGHT * 3631e-26) := by
      have h1 : I * (WAVELENGTH / (SPEED_OF_LIGHT * 3631e-26)) <
          J * (WAVELENGTH / (SPEED_OF_LIGHT * 3631e-26)) :=
        mul_lt_mul_of_pos_right hIJ hscale
      calc I * WAVELENGTH / (SPEED_OF_LIGHT * 3631e-26)
          = I * (WAVELENGTH / (SPEED_OF_LIGHT * 3631e-26)) := by ring
        _ < J * (WAVELENGTH / (SPEED_OF_LIGHT * 3631e-26)) := h1
        _ = J * WAVELENGTH / (SPEED_OF_LIGHT * 3631e-26) := by ring
    have hImax : max (I * WAVELENGTH / (SPEED_OF_LIGHT * 3631e-26)) 10e-6 =
        I * WAVELENGTH / (SPEED_OF_LIGHT * 3631e-26) := max_eq_left hI
    have hJle : (10e-6 : ℝ) ≤ J * WAVELENGTH / (SPEED_OF_LIGHT * 3631e-26) :=
      hI.trans hmono.le
    have hJmax : max (J * WAVELENGTH / (SPEED_OF_LIGHT * 3631e-26)) 10e-6 =
        J * WAVELENGTH / (SPEED_OF_LIGHT * 3631e-26) := max_eq_left hJle
    rw [hImax, hJmax]
    have hIpos : (0 : ℝ) < I * WAVELENGTH / (SPEED_OF_LIGHT * 3631e-26) :=
      lt_of_lt_of_le (by norm_num) hI
    have := Real.logb_lt_logb (b := 10) (by norm_num) hIpos hmono
    nlinarith

/-- Witness for C6's amended statement: intensities 1 and 2 are above the
floor, and the magnitude at intensity 2 is strictly smaller. -/
theorem ab_mag_floor_amended_witness :
    (10e-6 : ℝ) ≤ 1 * WAVELENGTH / (SPEED_OF_LIGHT * 3631e-26) ∧
    intensity_to_ab_mag 2 true < intensity_to_ab_mag 1 true := by
  have h1 : (10e-6 : ℝ) ≤ 1 * WAVELENGTH / (SPEED_OF_LIGHT * 3631e-26) := by
    rw [WAVELENGTH, SPEED_OF_LIGHT]
    norm_num
  exact ⟨h1, ab_mag_floor_amended.2.2 1 2 h1 (by norm_num)⟩

/-! ## C8 -/

/-- C8: called with `sat_z = EARTH_RADIUS / 2 ≤ EARTH_RADIUS` (orbiting body
below the surface), the panel mesh generator performs no validation and fails
with no error condition: the out-of-range `arccos` argument degenerates the
grid (NumPy: NaN; in the real-number model the clamped `arccos` gives 0), the
visibility filter then drops every candidate, and seven empty arrays are
returned silently.  The claimed `InvalidGeometry` failure does not exist in
the code. -/
theorem earthshine_panels_below_surface_silent :
    get_earthshine_panels (EARTH_RADIUS / 2) 0 3 = ⟨[], [], [], [], [], [], []⟩ := by
  have hR : EARTH_RADIUS / (EARTH_RADIUS / 2) = 2 := by
    rw [EARTH_RADIUS]
    norm_num
  have hma : Real.arccos (EARTH_RADIUS / (EARTH_RADIUS / 2)) = 0 := by
    rw [hR, Real.arccos_eq_zero]
    norm_num
  have hnz : panel_nz 0 0 = 1 := by
    simp [panel_nz, Real.tan_zero, Real.sqrt_one]
  have hmesh : mesh_angles (EARTH_RADIUS / 2) 0 3 = [] := by
    simp [mesh_angles, hma, linspace, List.range_succ, hnz, Real.arccos_one]
  simp [get_earthshine_panels, hmesh]

/-! ## C4 -/

/-- `cos 90 ≠ 0` over the reals (90 is radians here): otherwise
`180 = (2k+1) * pi` for some integer `k`, which the bounds on `pi` exclude. -/
theorem cos_ninety_ne_zero : Real.cos 90 ≠ 0 := by
  intro h
  rw [Real.cos_eq_zero_iff] at h
  obtain ⟨k, hk⟩ := h
  have h180 : (180 : ℝ) = (2 * (k : ℝ) + 1) * Real.pi := by linarith
  rcases le_or_lt k 28 with hle | hgt
  · have hc : (2 * (k : ℝ) + 1) ≤ 57 := by
      have : (k : ℝ) ≤ 28 := by exact_mod_cast hle
      linarith
    have h1 : (2 * (k : ℝ) + 1) * Real.pi ≤ 57 * Real.pi :=
      mul_le_mul_of_nonneg_right hc Real.pi_pos.le
    have h2 : (57 : ℝ) * Real.pi < 57 * 3.15 := by
      have := Real.pi_lt_d2
      nlinarith
    nlinarith
  · have hc : (59 : ℝ) ≤ 2 * (k : ℝ) + 1 := by
      have : (29 : ℝ) ≤ (k : ℝ) := by exact_mod_cast hgt
      linarith
    have h1 : (59 : ℝ) * Real.pi ≤ (2 * (k : ℝ) + 1) * Real.pi :=
      mul_le_mul_of_nonneg_right hc Real.pi_pos.le
    have h2 : (59 : ℝ) * 3.14 < 59 * Real.pi := by
      have := Real.pi_gt_d2
      nlinarith
    nlinarith

/-- C4 counterexample: the round trip `spherical_to_unit` after
`unit_to_spherical` does not restore the unit vector `(1, 0, 0)`:
`unit_to_spherical` returns degrees `(90, 0)` while `spherical_to_unit`
interprets its input as radians, so the z-component comes back as
`cos 90 ≠ 0`. -/
theorem unit_spherical_roundtrip_counterexample :
    spherical_to_unit (unit_to_spherical 1 0 0).1 (unit_to_spherical 1 0 0).2 ≠
      ((1 : ℝ), (0 : ℝ), (0 : ℝ)) := by
  have harg : atan2 0 1 = 0 := by
    have h1 : (⟨1, 0⟩ : ℂ) = 1 := Complex.ext rfl rfl
    rw [atan2, h1, Complex.arg_one]
  have hpair : unit_to_spherical 1 0 0 = (90, 0) := by
    simp only [unit_to_spherical, harg, Real.arccos_zero, rad2deg]
    refine Prod.ext ?_ ?_
    · show Real.pi / 2 * 180 / Real.pi = 90
      field_simp
      ring
    · show (0 : ℝ) * 180 / Real.pi = 0
      simp
  rw [hpair]
  intro h
  have h3 : Real.cos 90 = 0 := congrArg (fun v : ℝ × ℝ × ℝ => v.2.2) h
  exact cos_ninety_ne_zero h3

/-- C4 amended: the two functions are inverse only up to the degree/radian
mismatch: `unit_to_spherical` reports degrees while `spherical_to_unit`
consumes radians, so the round trip restores every unit vector once the
angles are converted back to radians with `deg2rad` (exactly, including the
poles, in real arithmetic). -/
theorem unit_spherical_roundtrip_radians (x y z : ℝ) (h : x ^ 2 + y ^ 2 + z ^ 2 = 1) :
    spherical_to_unit (deg2rad (unit_to_spherical x y z).1)
      (deg2rad (unit_to_spherical x y z).2) = (x, y, z) := by
  have hcancel : ∀ t : ℝ, deg2rad (rad2deg t) = t := by
    intro t
    rw [deg2rad, rad2deg]
    field_simp
  have hz1 : z ^ 2 ≤ 1 := by nlinarith [sq_nonneg x, sq_nonneg y]
  have hzle : z ≤ 1 := by nlinarith [sq_nonneg (z - 1)]
  have hzge : -1 ≤ z := by nlinarith [sq_nonneg (z + 1)]
  have hsin : Real.sin (Real.arccos z) = Real.sqrt (x ^ 2 + y ^ 2) := by
    rw [Real.sin_arccos]
    congr 1
    linarith
  have hcos : Real.cos (Real.arccos z) = z := Real.cos_arccos hzge hzle
  simp only [unit_to_spherical, spherical_to_unit, hcancel, hsin, hcos]
  by_cases hxy : x = 0 ∧ y = 0
  · obtain ⟨hx, hy⟩ := hxy
    subst hx hy
    simp
  · have hne : (⟨x, y⟩ : ℂ) ≠ 0 := by
      intro hc
      exact hxy ⟨congrArg Complex.re hc, congrArg Complex.im hc⟩
    have habs : Complex.abs ⟨x, y⟩ = Real.sqrt (x ^ 2 + y ^ 2) := by
      rw [Complex.abs_apply, Complex.normSq_apply]
      ring_nf
    have hsq : 0 < x ^ 2 + y ^ 2 := by
      rcases not_and_or.mp hxy with hx | hy
      · positivity
      · positivity
    have hsqrt : Real.sqrt (x ^ 2 + y ^ 2) ≠ 0 := by
      positivity
    have hcarg : Real.cos (atan2 y x) = x / Real.sqrt (x ^ 2 + y ^ 2) := by
      rw [atan2, Complex.cos_arg hne, habs]
    have hsarg : Real.sin (atan2 y x) = y / Real.sqrt (x ^ 2 + y ^ 2) := by
      rw [atan2, Complex.sin_arg, habs]
    rw [hcarg, hsarg]
    refine Prod.ext ?_ (Prod.ext ?_ rfl)
    · field_simp
    · field_simp

/-- Witness for C4's amended statement at the unit vector `(3/5, 0, 4/5)`. -/
theorem unit_spherical_roundtrip_radians_witness :
    ((3 / 5 : ℝ) ^ 2 + (0 : ℝ) ^ 2 + (4 / 5 : ℝ) ^ 2 = 1) ∧
    spherical_to_unit (deg2rad (unit_to_spherical (3 / 5) 0 (4 / 5)).1)
      (deg2rad (unit_to_spherical (3 / 5) 0 (4 / 5)).2) = (3 / 5, 0, 4 / 5) :=
  ⟨by norm_num, unit_spherical_roundtrip_radians (3 / 5) 0 (4 / 5) (by norm_num)⟩

/-! ## Panel-mesh lemmas -/

/-- The Earth radius constant is positive. -/
theorem EARTH_RADIUS_pos : (0 : ℝ) < EARTH_RADIUS := by
  rw [EARTH_RADIUS]
  norm_num

/-- The panel normal z-component is positive. -/
theorem panel_nz_pos (theta phi : ℝ) : 0 < panel_nz theta phi := by
  rw [panel_nz]
  positivity

/-- The defining equation of `panel_nz`:
`(1 + tan theta^2 + tan phi^2) * nz^2 = 1`. -/
theorem panel_nz_sq (theta phi : ℝ) :
    (1 + Real.tan theta ^ 2 + Real.tan phi ^ 2) * panel_nz theta phi ^ 2 = 1 := by
  have hs : (0 : ℝ) < 1 + Real.tan theta ^ 2 + Real.tan phi ^ 2 := by positivity
  rw [panel_nz, div_pow, one_pow, Real.sq_sqrt hs.le]
  field_simp

/-- `dx_dr` simplifies to `tan phi * nz`. -/
theorem dx_dr_eq (theta phi : ℝ) : dx_dr theta phi = Real.tan phi * panel_nz theta phi := by
  have hnz := (panel_nz_pos theta phi).ne'
  have hR := EARTH_RADIUS_pos.ne'
  rw [dx_dr, panel_nx, panel_z]
  field_simp
  ring

/-- `dy_dr` simplifies to `tan theta * nz`. -/
theorem dy_dr_eq (theta phi : ℝ) : dy_dr theta phi = Real.tan theta * panel_nz theta phi := by
  have hR := EARTH_RADIUS_pos.ne'
  rw [dy_dr, panel_z]
  field_simp
  ring

/-- `dz_dr` simplifies to `nz`. -/
theorem dz_dr_eq (theta phi : ℝ) : dz_dr theta phi = panel_nz theta phi := by
  have hR := EARTH_RADIUS_pos.ne'
  rw [dz_dr, panel_z]
  field_simp

/-- `dx_dphi` simplifies to `R * nz^3 * (1 + tan phi^2) * (1 + tan theta^2)`. -/
theorem dx_dphi_eq (theta phi : ℝ) (hth : Real.cos theta ≠ 0) (hph : Real.cos phi ≠ 0) :
    dx_dphi theta phi =
      EARTH_RADIUS * panel_nz theta phi ^ 3 *
        ((1 + Real.tan phi ^ 2) * (1 + Real.tan theta ^ 2)) := by
  have hR := EARTH_RADIUS_pos.ne'
  have hcph : Real.cos phi ^ 2 = (1 + Real.tan phi ^ 2)⁻¹ := (Real.inv_one_add_tan_sq hph).symm
  have hcth : Real.cos theta ^ 2 = (1 + Real.tan theta ^ 2)⁻¹ := (Real.inv_one_add_tan_sq hth).symm
  have hp1 : (0 : ℝ) < 1 + Real.tan phi ^ 2 := by positivity
  have ht1 : (0 : ℝ) < 1 + Real.tan theta ^ 2 := by positivity
  rw [dx_dphi, panel_z, hcph, hcth]
  field_simp
  ring

/-- `dx_dtheta` simplifies to `-(tan theta * tan phi * R * nz^3 * (1 + tan theta^2))`. -/
theorem dx_dtheta_eq (theta phi : ℝ) (hth : Real.cos theta ≠ 0) :
    dx_dtheta theta phi =
      -(Real.tan theta * Real.tan phi * EARTH_RADIUS * panel_nz theta phi ^ 3 *
        (1 + Real.tan theta ^ 2)) := by
  have hR := EARTH_RADIUS_pos.ne'
  have hnz := (panel_nz_pos theta phi).ne'
  have hcth : Real.cos theta ^ 2 = (1 + Real.tan theta ^ 2)⁻¹ := (Real.inv_one_add_tan_sq hth).symm
  have ht1 : (0 : ℝ) < 1 + Real.tan theta ^ 2 := by positivity
  rw [dx_dtheta, panel_nx, panel_ny, panel_z, hcth]
  field_simp
  ring

/-- `dy_dphi` simplifies to `-(tan theta * tan phi * R * nz^3 * (1 + tan phi^2))`. -/
theorem dy_dphi_eq (theta phi : ℝ) (hph : Real.cos phi ≠ 0) :
    dy_dphi theta phi =
      -(Real.tan theta * Real.tan phi * EARTH_RADIUS * panel_nz theta phi ^ 3 *
        (1 + Real.tan phi ^ 2)) := by
  have hR := EARTH_RADIUS_pos.ne'
  have hnz := (panel_nz_pos theta phi).ne'
  have hcph : Real.cos phi ^ 2 = (1 + Real.tan phi ^ 2)⁻¹ := (Real.inv_one_add_tan_sq hph).symm
  have hp1 : (0 : ℝ) < 1 + Real.tan phi ^ 2 := by positivity
  rw [dy_dphi, panel_nx, panel_ny, panel_z, hcph]
  field_simp
  ring

/-- `dz_dphi` simplifies to `-(tan phi * R * nz^3 * (1 + tan phi^2))`. -/
theorem dz_dphi_eq (theta phi : ℝ) (hph : Real.cos phi ≠ 0) :
    dz_dphi theta phi =
      -(Real.tan phi * EARTH_RADIUS * panel_nz theta phi ^ 3 * (1 + Real.tan phi ^ 2)) := by
  have hR := EARTH_RADIUS_pos.ne'
  have hnz := (panel_nz_pos theta phi).ne'
  have hcph : Real.cos phi ^ 2 = (1 + Real.tan phi ^ 2)⁻¹ := (Real.inv_one_add_tan_sq hph).symm
  have hp1 : (0 : ℝ) < 1 + Real.tan phi ^ 2 := by positivity
  rw [dz_dphi, panel_nx, panel_z, hcph]
  field_simp
  ring

/-- `dz_dtheta` simplifies to `-(tan theta * R * nz^3 * (1 + tan theta^2))`. -/
theorem dz_dtheta_eq (theta phi : ℝ) (hth : Real.cos theta ≠ 0) :
    dz_dtheta theta phi =
      -(Real.tan theta * EARTH_RADIUS * panel_nz theta phi ^ 3 * (1 + Real.tan theta ^ 2)) := by
  have hR := EARTH_RADIUS_pos.ne'
  have hnz := (panel_nz_pos theta phi).ne'
  have hcth : Real.cos theta ^ 2 = (1 + Real.tan theta ^ 2)⁻¹ := (Real.inv_one_add_tan_sq hth).symm
  have ht1 : (0 : ℝ) < 1 + Real.tan theta ^ 2 := by positivity
  rw [dz_dtheta, panel_ny, panel_z, hcth]
  field_simp
  ring

/-- Closed form of the panel Jacobian determinant:
`R^2 * nz^3 * (1 + tan phi^2) * (1 + tan theta^2)`, i.e.
`R^2 * nz^3 / (cos phi^2 * cos theta^2)`. -/
theorem panel_determinant_closed (theta phi : ℝ) (hth : Real.cos theta ≠ 0)
    (hph : Real.cos phi ≠ 0) :
    panel_determinant theta phi =
      EARTH_RADIUS ^ 2 * panel_nz theta phi ^ 3 *
        ((1 + Real.tan phi ^ 2) * (1 + Real.tan theta ^ 2)) := by
  have hsq := panel_nz_sq theta phi
  rw [panel_determinant, dy_dtheta, dx_dr_eq, dy_dr_eq, dz_dr_eq, dx_dphi_eq theta phi hth hph,
    dx_dtheta_eq theta phi hth, dy_dphi_eq theta phi hph, dz_dphi_eq theta phi hph,
    dz_dtheta_eq theta phi hth]
  linear_combination
    (EARTH_RADIUS ^ 2 * panel_nz theta phi ^ 3 * (1 + Real.tan phi ^ 2) *
      (1 + Real.tan theta ^ 2) *
      ((1 + Real.tan theta ^ 2 + Real.tan phi ^ 2) * panel_nz theta phi ^ 2 + 1)) * hsq

/-- The panel Jacobian determinant is strictly positive wherever both cosines
are nonzero. -/
theorem panel_determinant_pos (theta phi : ℝ) (hth : Real.cos theta ≠ 0)
    (hph : Real.cos phi ≠ 0) : 0 < panel_determinant theta phi := by
  rw [panel_determinant_closed theta phi hth hph]
  have h1 := EARTH_RADIUS_pos
  have h2 := panel_nz_pos theta phi
  have hp1 : (0 : ℝ) < 1 + Real.tan phi ^ 2 := by positivity
  have ht1 : (0 : ℝ) < 1 + Real.tan theta ^ 2 := by positivity
  exact mul_pos (mul_pos (pow_pos h1 2) (pow_pos h2 3)) (mul_pos hp1 ht1)

/-- `linspace` produces `n` points. -/
theorem linspace_length (a b : ℝ) (n : ℕ) : (linspace a b n).length = n := by
  rw [linspace, List.length_map, List.length_range]

/-- Every `linspace a b n` point lies in `[a, b]` when `a ≤ b`. -/
theorem linspace_mem {a b : ℝ} {n : ℕ} {t : ℝ} (hab : a ≤ b) (ht : t ∈ linspace a b n) :
    a ≤ t ∧ t ≤ b := by
  rw [linspace, List.mem_map] at ht
  obtain ⟨i, hi, rfl⟩ := ht
  rw [List.mem_range] at hi
  rcases Nat.lt_or_ge n 2 with hn | hn
  · interval_cases n
    · omega
    · have hi0 : i = 0 := by omega
      subst hi0
      norm_num [hab]
  · have hd : (0 : ℝ) < (n : ℝ) - 1 := by
      have h2 : (2 : ℝ) ≤ (n : ℝ) := by exact_mod_cast hn
      linarith
    have hi1 : (i : ℝ) ≤ (n : ℝ) - 1 := by
      have hsucc : (i : ℝ) + 1 ≤ (n : ℝ) := by exact_mod_cast Nat.succ_le_of_lt hi
      linarith
    have hr0 : 0 ≤ (i : ℝ) / ((n : ℝ) - 1) := div_nonneg (Nat.cast_nonneg i) hd.le
    have hr1 : (i : ℝ) / ((n : ℝ) - 1) ≤ 1 := by
      rw [div_le_one hd]
      linarith
    have hexpr : a + (b - a) * (i : ℝ) / ((n : ℝ) - 1) =
        a + (b - a) * ((i : ℝ) / ((n : ℝ) - 1)) := by ring
    rw [hexpr]
    constructor
    · nlinarith
    · nlinarith

/-- First point of a `linspace` with at least two points. -/
theorem linspace_getD_zero (a b : ℝ) (m : ℕ) : (linspace a b (m + 2)).getD 0 0 = a := by
  rw [linspace, List.range_succ_eq_map]
  norm_num

/-- Second point of a `linspace` with at least two points. -/
theorem linspace_getD_one (a b : ℝ) (m : ℕ) :
    (linspace a b (m + 2)).getD 1 0 = a + (b - a) / ((m : ℝ) + 1) := by
  rw [linspace, List.range_succ_eq_map, List.range_succ_eq_map]
  push_cast
  norm_num
  ring

/-- The off-plane step size is nonnegative. -/
theorem mesh_d_phi_nonneg (sat_z : ℝ) (density : ℕ) : 0 ≤ mesh_d_phi sat_z density := by
  simp only [mesh_d_phi]
  exact abs_nonneg _

/-- The on-plane step size is nonnegative. -/
theorem mesh_d_theta_nonneg (sat_z angle_past_terminator : ℝ) (density : ℕ) :
    0 ≤ mesh_d_theta sat_z angle_past_terminator density := by
  simp only [mesh_d_theta]
  exact abs_nonneg _

/-- With at least two grid points and a positive visibility angle, the
off-plane step size is positive. -/
theorem mesh_d_phi_pos (sat_z : ℝ) (m : ℕ)
    (h : 0 < Real.arccos (EARTH_RADIUS / sat_z)) : 0 < mesh_d_phi sat_z (m + 2) := by
  simp only [mesh_d_phi, linspace_getD_one, linspace_getD_zero]
  rw [abs_pos]
  have heq : -Real.arccos (EARTH_RADIUS / sat_z) +
      (Real.arccos (EARTH_RADIUS / sat_z) - -Real.arccos (EARTH_RADIUS / sat_z)) /
        ((m : ℝ) + 1) - -Real.arccos (EARTH_RADIUS / sat_z) =
      2 * Real.arccos (EARTH_RADIUS / sat_z) / ((m : ℝ) + 1) := by
    ring
  rw [heq]
  have hm : (0 : ℝ) < (m : ℝ) + 1 := by positivity
  positivity

/-- With at least two grid points and an angle past the terminator strictly
below the visibility angle, the on-plane step size is positive. -/
theorem mesh_d_theta_pos (sat_z angle_past_terminator : ℝ) (m : ℕ)
    (h : angle_past_terminator < Real.arccos (EARTH_RADIUS / sat_z)) :
    0 < mesh_d_theta sat_z angle_past_terminator (m + 2) := by
  simp only [mesh_d_theta, linspace_getD_one, linspace_getD_zero]
  rw [abs_pos]
  have heq : angle_past_terminator +
      (Real.arccos (EARTH_RADIUS / sat_z) - angle_past_terminator) / ((m : ℝ) + 1) -
        angle_past_terminator =
      (Real.arccos (EARTH_RADIUS / sat_z) - angle_past_terminator) / ((m : ℝ) + 1) := by
    ring
  rw [heq]
  have hm : (0 : ℝ) < (m : ℝ) + 1 := by positivity
  have hnum : (0 : ℝ) < Real.arccos (EARTH_RADIUS / sat_z) - angle_past_terminator := by
    linarith
  positivity

/-- The visibility half-angle is below `pi/2` for a satellite above the
Earth's center. -/
theorem max_angle_lt_pi_div_two {sat_z : ℝ} (hsz : 0 < sat_z) :
    Real.arccos (EARTH_RADIUS / sat_z) < Real.pi / 2 :=
  Real.arccos_lt_pi_div_two.mpr (div_pos EARTH_RADIUS_pos hsz)

/-- Angle bounds for every pair retained in the mesh: the on-plane angle lies
in `[angle_past_terminator, max_angle]` and the off-plane angle lies in
`[-max_angle, max_angle]`. -/
theorem mesh_angles_mem_bounds {sat_z ang : ℝ} {density : ℕ} {p : ℝ × ℝ}
    (hle : ang ≤ Real.arccos (EARTH_RADIUS / sat_z))
    (hp : p ∈ mesh_angles sat_z ang density) :
    (ang ≤ p.1 ∧ p.1 ≤ Real.arccos (EARTH_RADIUS / sat_z)) ∧
      -Real.arccos (EARTH_RADIUS / sat_z) ≤ p.2 ∧
        p.2 ≤ Real.arccos (EARTH_RADIUS / sat_z) := by
  simp only [mesh_angles, List.mem_filter] at hp
  obtain ⟨hmem, _⟩ := hp
  simp only [List.mem_flatMap, List.mem_map] at hmem
  obtain ⟨phi, hphi, theta, htheta, rfl⟩ := hmem
  have hmax := Real.arccos_nonneg (EARTH_RADIUS / sat_z)
  have h1 := linspace_mem hle htheta
  have h2 := linspace_mem (by linarith : -Real.arccos (EARTH_RADIUS / sat_z) ≤
    Real.arccos (EARTH_RADIUS / sat_z)) hphi
  exact ⟨h1, h2⟩

/-- The retained mesh has at most `density * density` panels. -/
theorem mesh_angles_length_le (sat_z ang : ℝ) (density : ℕ) :
    (mesh_angles sat_z ang density).length ≤ density * density := by
  simp only [mesh_angles]
  have hmap : ∀ phi : ℝ, ((linspace ang (Real.arccos (EARTH_RADIUS / sat_z)) density).map
      fun theta => (theta, phi)).length = density := by
    intro phi
    rw [List.length_map, linspace_length]
  have hflat : ((linspace (-Real.arccos (EARTH_RADIUS / sat_z))
      (Real.arccos (EARTH_RADIUS / sat_z)) density).flatMap
        fun phi => (linspace ang (Real.arccos (EARTH_RADIUS / sat_z)) density).map
          fun theta => (theta, phi)).length = density * density := by
    rw [List.length_flatMap]
    calc ((linspace (-Real.arccos (EARTH_RADIUS / sat_z))
            (Real.arccos (EARTH_RADIUS / sat_z)) density).map
          fun phi => ((linspace ang (Real.arccos (EARTH_RADIUS / sat_z)) density).map
            fun theta => (theta, phi)).length).sum
        = ((linspace (-Real.arccos (EARTH_RADIUS / sat_z))
            (Real.arccos (EARTH_RADIUS / sat_z)) density).map fun _ => density).sum := by
          congr 1
          exact List.map_congr_left fun phi _ => hmap phi
      _ = density * density := by
          rw [List.map_const', List.sum_replicate, smul_eq_mul, linspace_length]
  exact (List.length_filter_le _ _).trans hflat.le

/-- Every retained panel has strictly positive area when the satellite is
above the surface, the phase angle is in `[0, max_angle)`, and the grid has at
least two points per side. -/
theorem panel_area_pos {sat_z ang : ℝ} {m : ℕ} {p : ℝ × ℝ}
    (hsz : 0 < sat_z) (hang0 : 0 ≤ ang)
    (hlt : ang < Real.arccos (EARTH_RADIUS / sat_z))
    (hp : p ∈ mesh_angles sat_z ang (m + 2)) :
    0 < panel_area sat_z ang (m + 2) p.1 p.2 := by
  obtain ⟨⟨ht1, ht2⟩, hp1, hp2⟩ := mesh_angles_mem_bounds hlt.le hp
  have hm2 := max_angle_lt_pi_div_two hsz
  have hpi2 : (0 : ℝ) < Real.pi / 2 := by positivity
  have hcth : (0 : ℝ) < Real.cos p.1 :=
    Real.cos_pos_of_mem_Ioo ⟨by linarith, by linarith⟩
  have hcph : (0 : ℝ) < Real.cos p.2 :=
    Real.cos_pos_of_mem_Ioo ⟨by linarith, by linarith⟩
  have hdet := panel_determinant_pos p.1 p.2 hcth.ne' hcph.ne'
  have hmaxpos : 0 < Real.arccos (EARTH_RADIUS / sat_z) := lt_of_le_of_lt hang0 hlt
  have hdphi := mesh_d_phi_pos sat_z m hmaxpos
  have hdtheta := mesh_d_theta_pos sat_z ang m hlt
  exact mul_pos (mul_pos hdet hdphi) hdtheta

/-- Every retained panel has nonnegative area under the weaker in-range
hypotheses used by the intensity calculator (phase angle above `-pi/2` and at
most the visibility angle, any grid density). -/
theorem panel_area_nonneg {sat_z ang : ℝ} {density : ℕ} {p : ℝ × ℝ}
    (hsz : 0 < sat_z) (hang : -(Real.pi / 2) < ang)
    (hle : ang ≤ Real.arccos (EARTH_RADIUS / sat_z))
    (hp : p ∈ mesh_angles sat_z ang density) :
    0 ≤ panel_area sat_z ang density p.1 p.2 := by
  obtain ⟨⟨ht1, ht2⟩, hp1, hp2⟩ := mesh_angles_mem_bounds hle hp
  have hm2 := max_angle_lt_pi_div_two hsz
  have hcth : (0 : ℝ) < Real.cos p.1 :=
    Real.cos_pos_of_mem_Ioo ⟨by linarith, by linarith⟩
  have hcph : (0 : ℝ) < Real.cos p.2 :=
    Real.cos_pos_of_mem_Ioo ⟨by linarith, by linarith⟩
  have hdet := panel_determinant_pos p.1 p.2 hcth.ne' hcph.ne'
  exact mul_nonneg (mul_nonneg hdet.le (mesh_d_phi_nonneg _ _)) (mesh_d_theta_nonneg _ _ _)

/-- The unclipped illumination cosine of every retained panel is nonnegative:
with `theta` between the phase angle and the visibility angle, it equals
`nz * sin(theta - ang) / cos theta ≥ 0`. -/
theorem panel_normalization_nonneg {sat_z ang : ℝ} {density : ℕ} {p : ℝ × ℝ}
    (hsz : 0 < sat_z) (hang : -(Real.pi / 2) < ang)
    (hle : ang ≤ Real.arccos (EARTH_RADIUS / sat_z))
    (hp : p ∈ mesh_angles sat_z ang density) :
    0 ≤ panel_normalization ang p.1 p.2 := by
  obtain ⟨⟨ht1, ht2⟩, _, _⟩ := mesh_angles_mem_bounds hle hp
  have hm2 := max_angle_lt_pi_div_two hsz
  have hcth : (0 : ℝ) < Real.cos p.1 :=
    Real.cos_pos_of_mem_Ioo ⟨by linarith, by linarith⟩
  have hnz := panel_nz_pos p.1 p.2
  have key : Real.tan p.1 * Real.cos ang - Real.sin ang =
      Real.sin (p.1 - ang) / Real.cos p.1 := by
    rw [Real.sin_sub, Real.tan_eq_sin_div_cos]
    field_simp
  have hsin : 0 ≤ Real.sin (p.1 - ang) := by
    apply Real.sin_nonneg_of_nonneg_of_le_pi
    · linarith
    · have hpi : Real.pi / 2 + Real.pi / 2 = Real.pi := by ring
      linarith
  have base : 0 ≤ panel_nz p.1 p.2 * (Real.sin (p.1 - ang) / Real.cos p.1) :=
    mul_nonneg hnz.le (div_nonneg hsin hcth.le)
  calc (0 : ℝ) ≤ panel_nz p.1 p.2 * (Real.sin (p.1 - ang) / Real.cos p.1) := base
    _ = panel_nz p.1 p.2 * (Real.tan p.1 * Real.cos ang - Real.sin ang) := by rw [key]
    _ = panel_normalization ang p.1 p.2 := by
        rw [panel_normalization, panel_ny]
        ring

/-! ## C10 -/

/-- C10: for a satellite strictly above the surface, a phase angle in
`[0, arccos(R/sat_z))`, and density at least 2, the panel-mesh generator
returns seven lists of one common length at most `density^2`; every panel
position is `EARTH_RADIUS` times its unit normal; every retained panel
satisfies the visibility bound `arccos nz < arccos(R/sat_z)`; and every panel
area is strictly positive. -/
theorem earthshine_panels_invariants (sat_z ang : ℝ) (density : ℕ)
    (hsz : EARTH_RADIUS < sat_z) (hang0 : 0 ≤ ang)
    (hlt : ang < Real.arccos (EARTH_RADIUS / sat_z)) (hd : 2 ≤ density) :
    ((get_earthshine_panels sat_z ang density).x.length =
        (get_earthshine_panels sat_z ang density).areas.length ∧
      (get_earthshine_panels sat_z ang density).y.length =
        (get_earthshine_panels sat_z ang density).areas.length ∧
      (get_earthshine_panels sat_z ang density).z.length =
        (get_earthshine_panels sat_z ang density).areas.length ∧
      (get_earthshine_panels sat_z ang density).nx.length =
        (get_earthshine_panels sat_z ang density).areas.length ∧
      (get_earthshine_panels sat_z ang density).ny.length =
        (get_earthshine_panels sat_z ang density).areas.length ∧
      (get_earthshine_panels sat_z ang density).nz.length =
        (get_earthshine_panels sat_z ang density).areas.length ∧
      (get_earthshine_panels sat_z ang density).areas.length ≤ density * density) ∧
    ((get_earthshine_panels sat_z ang density).x =
        (get_earthshine_panels sat_z ang density).nx.map (fun t => t * EARTH_RADIUS) ∧
      (get_earthshine_panels sat_z ang density).y =
        (get_earthshine_panels sat_z ang density).ny.map (fun t => t * EARTH_RADIUS) ∧
      (get_earthshine_panels sat_z ang density).z =
        (get_earthshine_panels sat_z ang density).nz.map (fun t => t * EARTH_RADIUS)) ∧
    (∀ v ∈ (get_earthshine_panels sat_z ang density).nz,
      Real.arccos v < Real.arccos (EARTH_RADIUS / sat_z)) ∧
    (∀ a ∈ (get_earthshine_panels sat_z ang density).areas, 0 < a) := by
  obtain ⟨m, rfl⟩ : ∃ m, density = m + 2 := ⟨density - 2, by omega⟩
  refine ⟨?_, ?_, ?_, ?_⟩
  · simp only [get_earthshine_panels, List.length_map]
    exact ⟨trivial, trivial, trivial, trivial, trivial, trivial, mesh_angles_length_le _ _ _⟩
  · simp only [get_earthshine_panels, List.map_map]
    exact ⟨rfl, rfl, rfl⟩
  · intro v hv
    simp only [get_earthshine_panels, List.mem_map] at hv
    obtain ⟨p, hp, rfl⟩ := hv
    have := (List.mem_filter.mp hp).2
    simpa using this
  · intro a ha
    simp only [get_earthshine_panels, List.mem_map] at ha
    obtain ⟨p, hp, rfl⟩ := ha
    exact panel_area_pos (lt_trans EARTH_RADIUS_pos hsz) hang0 hlt hp

/-- Witness for C10 at `sat_z = 2 * EARTH_RADIUS`, phase angle 0,
density 2. -/
theorem earthshine_panels_invariants_witness :
    EARTH_RADIUS < 2 * EARTH_RADIUS ∧ (0 : ℝ) ≤ 0 ∧
    (0 : ℝ) < Real.arccos (EARTH_RADIUS / (2 * EARTH_RADIUS)) ∧
    (get_earthshine_panels (2 * EARTH_RADIUS) 0 2).areas.length ≤ 2 * 2 := by
  have h1 : EARTH_RADIUS < 2 * EARTH_RADIUS := by
    have := EARTH_RADIUS_pos
    linarith
  have h2 : EARTH_RADIUS / (2 * EARTH_RADIUS) = 1 / 2 := by
    rw [EARTH_RADIUS]
    norm_num
  have h3 : (0 : ℝ) < Real.arccos (EARTH_RADIUS / (2 * EARTH_RADIUS)) := by
    rw [h2]
    exact Real.arccos_pos.mpr (by norm_num)
  exact ⟨h1, le_refl 0, h3,
    (earthshine_panels_invariants (2 * EARTH_RADIUS) 0 2 h1 (le_refl 0) h3
      (le_refl 2)).1.2.2.2.2.2.2⟩

/-- Nonnegativity of the package-variant brightness-frame calculator under
the reflectance contract. -/
theorem brightness_frame_intensity_nonneg (sat_surfaces : List Surface)
    (sat_height angle_past_terminator : ℝ) (observer_position : Vec3)
    (include_sun include_earthshine : Bool) (earth_panel_density : ℕ)
    (earth_brdf : Vec3 → Vec3 → Vec3 → ℝ)
    (hsurf : ∀ s ∈ sat_surfaces, 0 ≤ s.area ∧ ∀ i n o, 0 ≤ s.brdf i n o)
    (hearth : ∀ i n o, 0 ≤ earth_brdf i n o)
    (hh : 0 < sat_height) (hang : -(Real.pi / 2) < angle_past_terminator) :
    0 ≤ BrightnessFrame.calculate_intensity sat_surfaces sat_height angle_past_terminator
      observer_position include_sun include_earthshine earth_panel_density earth_brdf := by
  simp only [BrightnessFrame.calculate_intensity]
  by_cases h1 : angle_past_terminator > Real.arccos (EARTH_RADIUS / (EARTH_RADIUS + sat_height))
  · rw [if_pos h1]
  · rw [if_neg h1]
    by_cases h2 : Real.arccos (observer_position.2.2 / EARTH_RADIUS) >
        Real.arccos (EARTH_RADIUS / (EARTH_RADIUS + sat_height)) + deg2rad 1
    · rw [if_pos h2]
    · rw [if_neg h2]
      have hsz : (0 : ℝ) < sat_height + EARTH_RADIUS := by linarith [EARTH_RADIUS_pos]
      have hle : angle_past_terminator ≤
          Real.arccos (EARTH_RADIUS / (sat_height + EARTH_RADIUS)) := by
        rw [add_comm sat_height EARTH_RADIUS]
        exact not_lt.mp h1
      refine List.sum_nonneg ?_
      intro x hx
      simp only [List.mem_map] at hx
      obtain ⟨s, hs, rfl⟩ := hx
      obtain ⟨hA, hB⟩ := hsurf s hs
      refine div_nonneg ?_ (sq_nonneg _)
      refine mul_nonneg (mul_nonneg ?_ hA) ?_
      · rw [SUN_INTENSITY]
        norm_num
      refine add_nonneg ?_ ?_
      · cases include_sun with
        | false => simp
        | true =>
          rw [if_pos rfl]
          exact mul_nonneg (mul_nonneg (hB _ _ _) (le_max_right _ _)) (le_max_right _ _)
      · cases include_earthshine with
        | false => simp
        | true =>
          rw [if_pos rfl]
          refine List.sum_nonneg ?_
          intro y hy
          simp only [List.mem_map] at hy
          obtain ⟨p, hp, rfl⟩ := hy
          refine div_nonneg ?_ (sq_nonneg _)
          refine mul_nonneg (mul_nonneg (mul_nonneg (mul_nonneg ?_ ?_) ?_) ?_) ?_
          · exact hearth _ _ _
          · exact hB _ _ _
          · exact panel_normalization_nonneg hsz hang hle hp
          · exact sq_nonneg _
          · exact panel_area_nonneg hsz hang hle hp

/-- Nonnegativity of the `lumos/calculator.py`-variant brightness-frame
calculator under the reflectance contract. -/
theorem satellite_frame_intensity_nonneg (sat_surfaces : List Surface)
    (sat_height angle_past_terminator : ℝ) (observer_position : Vec3)
    (include_sun include_earthshine : Bool) (earth_panel_density : ℕ)
    (earth_brdf : Vec3 → Vec3 → Vec3 → ℝ)
    (hsurf : ∀ s ∈ sat_surfaces, 0 ≤ s.area ∧ ∀ i n o, 0 ≤ s.brdf i n o)
    (hearth : ∀ i n o, 0 ≤ earth_brdf i n o)
    (hh : 0 < sat_height) (hang : -(Real.pi / 2) < angle_past_terminator) :
    0 ≤ get_intensity_satellite_frame sat_surfaces sat_height angle_past_terminator
      observer_position include_sun include_earthshine earth_panel_density earth_brdf := by
  simp only [get_intensity_satellite_frame]
  by_cases h1 : angle_past_terminator > Real.arccos (EARTH_RADIUS / (EARTH_RADIUS + sat_height))
  · rw [if_pos h1]
  · rw [if_neg h1]
    by_cases h2 : Real.arccos (observer_position.2.2 / EARTH_RADIUS) >
        Real.arccos (EARTH_RADIUS / (EARTH_RADIUS + sat_height)) + deg2rad 1
    · rw [if_pos h2]
    · rw [if_neg h2]
      have hsz : (0 : ℝ) < sat_height + EARTH_RADIUS := by linarith [EARTH_RADIUS_pos]
      have hle : angle_past_terminator ≤
          Real.arccos (EARTH_RADIUS / (sat_height + EARTH_RADIUS)) := by
        rw [add_comm sat_height EARTH_RADIUS]
        exact not_lt.mp h1
      refine List.sum_nonneg ?_
      intro x hx
      simp only [List.mem_map] at hx
      obtain ⟨s, hs, rfl⟩ := hx
      obtain ⟨hA, hB⟩ := hsurf s hs
      refine div_nonneg ?_ (sq_nonneg _)
      refine mul_nonneg (mul_nonneg ?_ hA) ?_
      · rw [SUN_INTENSITY]
        norm_num
      refine add_nonneg ?_ ?_
      · cases include_sun with
        | false => simp
        | true =>
          rw [if_pos rfl]
          exact mul_nonneg (mul_nonneg (hB _ _ _) (le_max_right _ _)) (le_max_right _ _)
      · cases include_earthshine with
        | false => simp
        | true =>
          rw [if_pos rfl]
          refine List.sum_nonneg ?_
          intro y hy
          simp only [List.mem_map] at hy
          obtain ⟨p, hp, rfl⟩ := hy
          refine div_nonneg ?_ (sq_nonneg _)
          refine mul_nonneg (mul_nonneg (mul_nonneg (mul_nonneg (mul_nonneg
            (mul_nonneg ?_ ?_) ?_) ?_) ?_) ?_) ?_
          · exact hearth _ _ _
          · exact hB _ _ _
          · exact panel_normalization_nonneg hsz hang hle hp
          · exact le_max_right _ _
          · exact le_max_right _ _
          · exact le_max_right _ _
          · exact panel_area_nonneg hsz hang hle hp

/-! ## C2 -/

/-- C2: for every input whose surface areas are nonnegative and whose surface
and Earth reflectance functions satisfy the non-negativity contract, and
in-range geometry (positive height, phase angle above `-pi/2`), both
brightness-frame intensity calculators return a value that is at least 0,
with both the direct-sun and the earthshine terms included (all cosine
weights are clipped or provably nonnegative and all panel areas are provably
nonnegative).  In the real-number model the result is a well-defined real, so
no NaN can arise. -/
theorem intensity_nonneg (sat_surfaces : List Surface)
    (sat_height angle_past_terminator : ℝ) (observer_position : Vec3)
    (include_sun include_earthshine : Bool) (earth_panel_density : ℕ)
    (earth_brdf : Vec3 → Vec3 → Vec3 → ℝ)
    (hsurf : ∀ s ∈ sat_surfaces, 0 ≤ s.area ∧ ∀ i n o, 0 ≤ s.brdf i n o)
    (hearth : ∀ i n o, 0 ≤ earth_brdf i n o)
    (hh : 0 < sat_height) (hang : -(Real.pi / 2) < angle_past_terminator) :
    0 ≤ BrightnessFrame.calculate_intensity sat_surfaces sat_height angle_past_terminator
      observer_position include_sun include_earthshine earth_panel_density earth_brdf ∧
    0 ≤ get_intensity_satellite_frame sat_surfaces sat_height angle_past_terminator
      observer_position include_sun include_earthshine earth_panel_density earth_brdf :=
  ⟨brightness_frame_intensity_nonneg _ _ _ _ _ _ _ _ hsurf hearth hh hang,
   satellite_frame_intensity_nonneg _ _ _ _ _ _ _ _ hsurf hearth hh hang⟩

/-- Witness for C2: a single unit surface with constant reflectance 1,
constant Earth reflectance 1, height 550000 m, phase angle 0, both terms
included, density 2. -/
theorem intensity_nonneg_witness :
    (0 : ℝ) < 550000 ∧ -(Real.pi / 2) < (0 : ℝ) ∧
    0 ≤ BrightnessFrame.calculate_intensity
      [⟨1, .fixed (0, 0, -1), fun _ _ _ => 1⟩] 550000 0 (0, 0, EARTH_RADIUS) true true 2
      (fun _ _ _ => 1) := by
  have hang : -(Real.pi / 2) < (0 : ℝ) := by
    have := Real.pi_pos
    linarith
  refine ⟨by norm_num, hang, ?_⟩
  refine (intensity_nonneg [⟨1, .fixed (0, 0, -1), fun _ _ _ => 1⟩] 550000 0
    (0, 0, EARTH_RADIUS) true true 2 (fun _ _ _ => 1) ?_ ?_ (by norm_num) hang).1
  · intro s hs
    simp only [List.mem_singleton] at hs
    subst hs
    exact ⟨by norm_num, fun _ _ _ => by norm_num⟩
  · intro i n o
    norm_num

/-- At height 550000 m and phase angle exactly the horizon angle, a nadir
surface of area 5 with constant unit reflectance, seen by an observer
directly below in the sun-only configuration, yields strictly positive
intensity. -/
theorem boundary_value_pos :
    0 < get_intensity_satellite_frame
      [⟨5, .fixed (0, 0, -1), fun _ _ _ => 1⟩] 550000
      (Real.arccos (EARTH_RADIUS / (EARTH_RADIUS + 550000)))
      (0, 0, EARTH_RADIUS) true false 150 (fun _ _ _ => 0) := by
  have hR := EARTH_RADIUS_pos
  have hs1 : (0 : ℝ) < EARTH_RADIUS + 550000 := by linarith
  have hx1 : EARTH_RADIUS / (EARTH_RADIUS + 550000) < 1 := by
    rw [div_lt_one hs1]
    linarith
  have hx0 : 0 < EARTH_RADIUS / (EARTH_RADIUS + 550000) := div_pos hR hs1
  have hsin : 0 < Real.sin (Real.arccos (EARTH_RADIUS / (EARTH_RADIUS + 550000))) := by
    rw [Real.sin_arccos]
    apply Real.sqrt_pos.mpr
    nlinarith
  have hobs : ¬ Real.arccos (EARTH_RADIUS / EARTH_RADIUS) >
      Real.arccos (EARTH_RADIUS / (EARTH_RADIUS + 550000)) + deg2rad 1 := by
    rw [div_self hR.ne', Real.arccos_one]
    push_neg
    have hd : 0 ≤ deg2rad 1 := by
      rw [deg2rad]
      positivity
    have ha := Real.arccos_nonneg (EARTH_RADIUS / (EARTH_RADIUS + 550000))
    linarith
  have hdist : Real.sqrt ((0 : ℝ) ^ 2 + 0 ^ 2 +
      (EARTH_RADIUS - (550000 + EARTH_RADIUS)) ^ 2) = 550000 := by
    have h : (0 : ℝ) ^ 2 + 0 ^ 2 + (EARTH_RADIUS - (550000 + EARTH_RADIUS)) ^ 2 =
        550000 ^ 2 := by ring
    rw [h, Real.sqrt_sq (by norm_num : (0 : ℝ) ≤ 550000)]
  simp only [get_intensity_satellite_frame, SurfaceNormal.resolve, List.map_cons, List.map_nil,
    List.sum_cons, List.sum_nil, add_zero]
  rw [if_neg (lt_irrefl _), if_neg hobs, hdist, if_pos trivial,
    if_neg (by decide : ¬(false = true))]
  have e1 : (0 : ℝ) * Real.cos (Real.arccos (EARTH_RADIUS / (EARTH_RADIUS + 550000))) +
      -1 * -Real.sin (Real.arccos (EARTH_RADIUS / (EARTH_RADIUS + 550000))) =
      Real.sin (Real.arccos (EARTH_RADIUS / (EARTH_RADIUS + 550000))) := by ring
  have e2 : (0 : ℝ) * (0 / 550000) + 0 * (0 / 550000) +
      -1 * ((EARTH_RADIUS - (550000 + EARTH_RADIUS)) / 550000) = 1 := by
    have h : EARTH_RADIUS - (550000 + EARTH_RADIUS) = (-550000 : ℝ) := by ring
    rw [h]
    norm_num
  rw [e1, e2, max_eq_left hsin.le, max_eq_left (by norm_num : (0 : ℝ) ≤ 1), SUN_INTENSITY]
  have h5 : (0 : ℝ) < 1360 * 5 *
      (1 * Real.sin (Real.arccos (EARTH_RADIUS / (EARTH_RADIUS + 550000))) * 1 + 0) := by
    nlinarith [hsin]
  exact div_pos h5 (by norm_num)

/-! ## C7 -/

/-- C7 counterexample: at height 550000 m and phase angle exactly equal to
the horizon angle computed from that height, the brightness-frame calculator
does not return 0 for every surface list and observer position: with a nadir
surface of area 5, constant unit reflectance and the observer directly below,
it returns a strictly positive value, because the shadow test uses the strict
comparison `>` and therefore does not fire at the boundary. -/
theorem boundary_phase_angle_counterexample :
    get_intensity_satellite_frame
      [⟨5, .fixed (0, 0, -1), fun _ _ _ => 1⟩] 550000
      (Real.arccos (EARTH_RADIUS / (EARTH_RADIUS + 550000)))
      (0, 0, EARTH_RADIUS) true false 150 (fun _ _ _ => 0) ≠ 0 :=
  boundary_value_pos.ne'

/-- C7 amended: at height 550000 m the calculator returns 0 whenever the
phase angle strictly exceeds the horizon angle, but at a phase angle exactly
equal to the horizon angle the shadow test (strict `>`) does not fire and the
full radiometric computation runs, which can produce a strictly positive
intensity. -/
theorem boundary_phase_angle_amended :
    (∀ (sat_surfaces : List Surface) (ang : ℝ) (observer_position : Vec3)
        (include_sun include_earthshine : Bool) (earth_panel_density : ℕ)
        (earth_brdf : Vec3 → Vec3 → Vec3 → ℝ),
      ang > Real.arccos (EARTH_RADIUS / (EARTH_RADIUS + 550000)) →
      get_intensity_satellite_frame sat_surfaces 550000 ang observer_position
        include_sun include_earthshine earth_panel_density earth_brdf = 0) ∧
    0 < get_intensity_satellite_frame
      [⟨5, .fixed (0, 0, -1), fun _ _ _ => 1⟩] 550000
      (Real.arccos (EARTH_RADIUS / (EARTH_RADIUS + 550000)))
      (0, 0, EARTH_RADIUS) true false 150 (fun _ _ _ => 0) :=
  ⟨fun _ _ _ _ _ _ _ h => satellite_frame_shadow_zero _ _ _ _ _ _ _ _ h,
   boundary_value_pos⟩

/-- Witness for C7's amended statement: the strict-shadow clause applied at
angle 4 rad, which exceeds the horizon angle since `arccos ≤ pi < 4`. -/
theorem boundary_phase_angle_amended_witness :
    (4 : ℝ) > Real.arccos (EARTH_RADIUS / (EARTH_RADIUS + 550000)) ∧
    get_intensity_satellite_frame [] 550000 4 (0, 0, EARTH_RADIUS) true false 150
      (fun _ _ _ => 0) = 0 := by
  have hgt : (4 : ℝ) > Real.arccos (EARTH_RADIUS / (EARTH_RADIUS + 550000)) :=
    lt_of_le_of_lt (Real.arccos_le_pi _) (by nlinarith [Real.pi_lt_d2])
  exact ⟨hgt,
    boundary_phase_angle_amended.1 [] 4 (0, 0, EARTH_RADIUS) true false 150
      (fun _ _ _ => 0) hgt⟩

end Lumos
